import Mathlib

/-
Shallow embedding of src/core/models.py (restaurant POS data layer).

Currency (DecimalField) and stock quantities (FloatField) are embedded as
exact rationals; order-item quantity (IntegerField) as Int.  Entities are
records; the database rows touched by stock depletion are a store keyed by
ingredient primary key.  A Python method that can raise an exception is
embedded as an Option-valued function, none standing for the raised
exception.
-/

namespace POS

/-- Ingredient row: name, stock quantity, unit, reorder point, unit cost. -/
structure Ingredient where
  id : Nat
  name : String
  quantity : ℚ
  unit : String
  reorder_point : ℚ
  cost_per_unit : ℚ
  deriving DecidableEq, Repr

/-- Recipe row: one (menu_item, ingredient) association with a quantity.
The menu item side is carried by the owning MenuItem record below
(mirroring the related_name recipe_items reverse accessor). -/
structure Recipe where
  ingredient : Ingredient
  quantity : ℚ
  deriving DecidableEq, Repr

/-- MenuItem row (image and description omitted: opaque media / text). -/
structure MenuItem where
  id : Nat
  name : String
  price : ℚ
  misc_cost : ℚ
  is_available : Bool
  recipe_items : List Recipe
  deriving DecidableEq, Repr

/-- MenuItem.caluclate_cost (typo kept from the source).  The generator
multiplies recipe.ingredient.cost_per_unit, a DecimalField value (a
Python Decimal), by recipe.quantity, a FloatField value (a Python float
when the recipe line comes back from the database through
recipe_items.all()); Decimal * float is an unsupported operand pairing
in Python and raises TypeError, so the sum raises at the first recipe
line.  With no recipe lines, sum() of the empty generator is the int 0,
and 0 + misc_cost (int + Decimal) is the misc_cost.  none embeds the
raised TypeError. -/
def MenuItem.caluclate_cost (m : MenuItem) : Option ℚ :=
  match m.recipe_items with
  | [] => some m.misc_cost
  | _ :: _ => none

/-- Discount row.  discount_type is the CharField with choices
amount / percentage / coupon; excluded_items is the many-to-many with
MenuItem, held as primary keys (Python membership on model instances
compares primary keys).  Dates are embedded as timestamps. -/
structure Discount where
  name : String
  discount_type : String
  discount_value : ℚ
  coupon_code : Option String
  start_date : Option Int
  end_date : Option Int
  is_active : Bool
  excluded_items : List Nat
  deriving DecidableEq, Repr

/-- Discount.is_valid as the source actually behaves.  The module imports
only django.db.models and User, and the method body references
timezone.now(); the name timezone is undefined in the module, so the
comparison branches raise NameError whenever they are reached.  They are
reached exactly when the guarding date field is non-null (a datetime is
always truthy, so the short-circuit skips the comparison only when the
field is None).  none embeds the raised NameError. -/
def Discount.is_valid (d : Discount) : Option Bool :=
  if !d.is_active then some false
  else if d.start_date.isSome then none
  else if d.end_date.isSome then none
  else some true

/-- OrderItem row: menu item, integer quantity, unit price, free flag. -/
structure OrderItem where
  menu_item : MenuItem
  quantity : Int
  price : ℚ
  is_free : Bool
  deriving DecidableEq, Repr

/-- OrderItem.subtotal property: 0 if is_free else price * quantity. -/
def OrderItem.subtotal (it : OrderItem) : ℚ :=
  if it.is_free then 0 else it.price * it.quantity

/-- Order row; items is the reverse accessor self.items.all(). -/
structure Order where
  status : String
  total_amount : ℚ
  payment_method : String
  discount : Option Discount
  coupon_code : Option String
  items : List OrderItem
  deriving DecidableEq, Repr

/-- The local variable subtotal of Order.update_total_amount:
sum of item.subtotal over self.items.all(). -/
def Order.subtotal (o : Order) : ℚ :=
  (o.items.map OrderItem.subtotal).sum

/-- The body of the discount loop in Order.update_total_amount, for one
order line: nothing for an excluded menu item, the flat discount_value
for type amount, (price * discount_value / 100) * quantity for type
percentage, and nothing for any other type (no elif branch matches). -/
def Discount.line_discount (d : Discount) (item : OrderItem) : ℚ :=
  if item.menu_item.id ∈ d.excluded_items then 0
  else if d.discount_type = "amount" then d.discount_value
  else if d.discount_type = "percentage" then
    item.price * d.discount_value / 100 * item.quantity
  else 0

/-- The local variable discount_amount of Order.update_total_amount:
starts at 0, and when self.discount is set the guard calls is_valid();
none propagates the NameError raised there.  When is_valid() is True the
loop accumulates line_discount over the lines, otherwise 0 remains. -/
def Order.discount_amount (o : Order) : Option ℚ :=
  match o.discount with
  | none => some 0
  | some d =>
    match d.is_valid with
    | none => none
    | some b => some (if b then (o.items.map d.line_discount).sum else 0)

/-- Order.update_total_amount: total = subtotal - discount_amount, then
self.total_amount = max(total, 0) and self.save().  The saved order is
returned; none propagates an exception from the discount guard. -/
def Order.update_total_amount (o : Order) : Option Order :=
  o.discount_amount.map fun da =>
    { o with total_amount := max (o.subtotal - da) 0 }

/-- The stock loop of OrderItem.save: for each recipe line in order,
read the current ingredient row, subtract recipe.quantity * q from its
quantity, and write it back.  The store maps ingredient primary keys to
stock quantities. -/
def depleteStock (q : ℚ) : List Recipe → (Nat → ℚ) → (Nat → ℚ)
  | [], s => s
  | r :: rs, s =>
      depleteStock q rs fun j =>
        if j = r.ingredient.id then s r.ingredient.id - r.quantity * q
        else s j

/-- OrderItem.save: after persisting the row itself, deplete stock for
every recipe line of the menu item by recipe.quantity * self.quantity,
then call self.order.update_total_amount().  Returns the updated
ingredient store and the result of the total recomputation. -/
def OrderItem.save (it : OrderItem) (stock : Nat → ℚ) (o : Order) :
    (Nat → ℚ) × Option Order :=
  (depleteStock (it.quantity : ℚ) it.menu_item.recipe_items stock,
   o.update_total_amount)

/- Concrete fixtures, taken from the scenarios in the specification. -/

/-- The Bun ingredient of the Burger scenario: cost_per_unit 0.50. -/
def bun : Ingredient := ⟨1, "Bun", 100, "pcs", 10, 1/2⟩

/-- The Burger of the cost scenario: one recipe line of quantity 1 on the
Bun, misc_cost 0.20. -/
def burger : MenuItem := ⟨1, "Burger", 5, 1/5, true, [⟨bun, 1⟩]⟩

/-- A menu item with no recipe lines. -/
def water : MenuItem := ⟨2, "Water", 1, 0, true, []⟩

/-- The 10.00 menu item of the order scenarios. -/
def itemA : MenuItem := ⟨3, "A", 10, 0, true, []⟩

/-- The 5.00 menu item of the order scenarios. -/
def itemB : MenuItem := ⟨4, "B", 5, 0, true, []⟩

/-- An active percentage discount of value 10 with no dates and no
exclusions. -/
def pct10 : Discount := ⟨"Ten percent", "percentage", 10, none, none, none, true, []⟩

/-- An active flat amount discount of value 3 with no dates and no
exclusions. -/
def flat3 : Discount := ⟨"Three off", "amount", 3, none, none, none, true, []⟩

/-- An active coupon-type discount with no dates and no exclusions. -/
def coupon0 : Discount := ⟨"Coupon", "coupon", 5, some "CODE", none, none, true, []⟩

/-- The two-line order of the spec scenarios (10.00 x 2 and 5.00 x 1),
carrying the percentage discount. -/
def baseOrder : Order :=
  ⟨"pending", 0, "cash", some pct10, none,
   [⟨itemA, 2, 10, false⟩, ⟨itemB, 1, 5, false⟩]⟩

/-- A one-line order (10.00 x 1) carrying the flat amount discount. -/
def flatOrder : Order :=
  ⟨"pending", 0, "cash", some flat3, none, [⟨itemA, 1, 10, false⟩]⟩

/-- A free order line on the non-excluded 5.00 item. -/
def freeLine : OrderItem := ⟨itemB, 1, 5, true⟩

/-- An order whose single line has a negative price, carrying the
coupon discount. -/
def couponOrder : Order :=
  ⟨"pending", 0, "cash", some coupon0, none, [⟨itemA, 1, -1, false⟩]⟩

/-- An order with no lines and no discount. -/
def plainOrder : Order := ⟨"pending", 7, "cash", none, none, []⟩

/- Helper lemmas shared by the claim theorems. -/

/-- The accumulated per-line sum of a percentage discount equals the sum
of (price * value / 100) * quantity over the non-excluded lines. -/
lemma sum_line_discount_percentage (d : Discount)
    (ht : d.discount_type = "percentage") (l : List OrderItem) :
    (l.map d.line_discount).sum
      = ((l.filter fun it => it.menu_item.id ∉ d.excluded_items).map
          fun it => it.price * d.discount_value / 100 * it.quantity).sum := by
  induction l with
  | nil => rfl
  | cons a t ih =>
    by_cases h : a.menu_item.id ∈ d.excluded_items <;>
      simp [Discount.line_discount, List.filter_cons, h, ht, ih]

/-- The accumulated per-line sum of an amount discount equals the flat
value times the number of non-excluded lines. -/
lemma sum_line_discount_amount (d : Discount)
    (ht : d.discount_type = "amount") (l : List OrderItem) :
    (l.map d.line_discount).sum
      = d.discount_value
          * ((l.filter fun it => it.menu_item.id ∉ d.excluded_items).length : ℚ) := by
  induction l with
  | nil => simp
  | cons a t ih =>
    by_cases h : a.menu_item.id ∈ d.excluded_items
    · simp [Discount.line_discount, List.filter_cons, h, ht, ih]
    · simp only [List.map_cons, List.sum_cons, List.filter_cons, ih]
      simp [Discount.line_discount, h, ht]
      ring

/-- The accumulated per-line sum of a coupon discount is 0: neither
branch of the if/elif chain matches. -/
lemma sum_line_discount_coupon (d : Discount)
    (ht : d.discount_type = "coupon") (l : List OrderItem) :
    (l.map d.line_discount).sum = 0 := by
  induction l with
  | nil => rfl
  | cons a t ih =>
    by_cases h : a.menu_item.id ∈ d.excluded_items <;>
      simp [Discount.line_discount, h, ht, ih]

/-- When the guard hypotheses of the discount branch hold, the
accumulated discount is the per-line sum. -/
lemma discount_amount_of_valid (o : Order) (d : Discount)
    (hd : o.discount = some d) (hv : d.is_valid = some true) :
    o.discount_amount = some ((o.items.map d.line_discount).sum) := by
  simp [Order.discount_amount, hd, hv]

/-- The accumulated discount ignores the stored total_amount field. -/
lemma discount_amount_total_irrel (o : Order) (t : ℚ) :
    Order.discount_amount { o with total_amount := t } = o.discount_amount := rfl

/-- The subtotal ignores the stored total_amount field. -/
lemma subtotal_total_irrel (o : Order) (t : ℚ) :
    Order.subtotal { o with total_amount := t } = o.subtotal := rfl

/-- A stock store entry whose key is not among the recipe ingredient
keys is untouched by the depletion loop. -/
lemma depleteStock_not_touched (q : ℚ) :
    ∀ (l : List Recipe) (s : Nat → ℚ) (j : Nat),
      j ∉ (l.map fun r => r.ingredient.id) → depleteStock q l s j = s j := by
  intro l
  induction l with
  | nil => intro s j _; rfl
  | cons r rs ih =>
    intro s j hj
    simp only [List.map_cons, List.mem_cons] at hj
    push_neg at hj
    rw [depleteStock, ih _ _ hj.2]
    simp [hj.1]

/-- When the recipe lines have pairwise distinct ingredient keys, the
depletion loop subtracts exactly quantity * q from each of them. -/
lemma depleteStock_mem (q : ℚ) :
    ∀ (l : List Recipe) (s : Nat → ℚ),
      ((l.map fun r => r.ingredient.id).Nodup) →
      ∀ r ∈ l, depleteStock q l s r.ingredient.id
        = s r.ingredient.id - r.quantity * q := by
  intro l
  induction l with
  | nil => intro s _ r hr; cases hr
  | cons a t ih =>
    intro s hN r hr
    rw [List.map_cons, List.nodup_cons] at hN
    rcases List.mem_cons.mp hr with h | h
    · subst h
      rw [depleteStock, depleteStock_not_touched q t _ _ hN.1]
      simp
    · have hne : r.ingredient.id ≠ a.ingredient.id := by
        intro he
        exact hN.1 (he ▸ List.mem_map_of_mem (fun r => r.ingredient.id) h)
      rw [depleteStock, ih _ hN.2 r h]
      simp [hne]

/- Claim theorems. -/

/-- The subtotal ignores the discount field. -/
lemma subtotal_discount_irrel (o : Order) (dd : Option Discount) :
    Order.subtotal { o with discount := dd } = o.subtotal := rfl

/-- C1: for every order whose discount is a valid percentage-type
discount, update_total_amount sets total_amount to
max 0 (subtotal - D), where subtotal sums (0 if free else
price * quantity) over all lines and D sums
(price * discount_value / 100) * quantity over the lines whose menu
item is not among the excluded_items. -/
theorem C1_percentage_discount_total (o : Order) (d : Discount)
    (hd : o.discount = some d) (hv : d.is_valid = some true)
    (ht : d.discount_type = "percentage") :
    o.update_total_amount = some
      { o with
          total_amount := max 0
            ((o.items.map fun it => if it.is_free then 0 else it.price * it.quantity).sum
              - ((o.items.filter fun it => it.menu_item.id ∉ d.excluded_items).map
                  fun it => it.price * d.discount_value / 100 * it.quantity).sum) } := by
  rw [Order.update_total_amount, discount_amount_of_valid o d hd hv, Option.map_some']
  show some
      { o with
          total_amount := max
            (o.subtotal - (o.items.map d.line_discount).sum) 0 } = _
  rw [sum_line_discount_percentage d ht, max_comm]
  rfl

/-- C1 witness: the spec scenario, two lines 10.00 x 2 and 5.00 x 1 under
the valid percentage discount of value 10: the recomputed total is 22.50. -/
theorem C1_percentage_discount_total_witness :
    (baseOrder.update_total_amount).map Order.total_amount = some (45/2) := by
  rw [C1_percentage_discount_total baseOrder pct10 rfl rfl rfl]
  norm_num [baseOrder, pct10, itemA, itemB]

/-- C3: the claim is contradicted by the source.  cost_per_unit is a
Decimal and recipe.quantity is a float once read from the database, and
Decimal * float raises TypeError in Python, so any menu item with at
least one recipe line raises instead of returning a cost; in particular
the Burger scenario raises rather than returning 0.70.  Only an item
with no recipe lines returns, and it returns exactly its misc_cost.
The theorem evaluates the embedded code at the Burger failing input and
at a recipe-free item. -/
theorem C3_caluclate_cost_raises_typeerror :
    burger.caluclate_cost = none
      ∧ water.caluclate_cost = some water.misc_cost :=
  ⟨rfl, rfl⟩

/-- C4: the claim is contradicted by the source.  The module imports
neither django.utils.timezone nor any other binding named timezone, yet
is_valid references timezone.now(); as soon as a date field is non-null
the comparison is reached and raises NameError instead of returning a
Boolean.  At the concrete input below (active discount whose start_date
is the epoch) the claim expects True; the code raises. -/
theorem C4_is_valid_raises_namerror :
    Discount.is_valid
      ⟨"Promo", "percentage", 10, none, some 0, none, true, []⟩ = none := rfl

/-- C6: whenever update_total_amount completes, the saved total_amount
is nonnegative: the computed total is clamped at 0. -/
theorem C6_total_nonneg (o o' : Order)
    (h : o.update_total_amount = some o') : 0 ≤ o'.total_amount := by
  rcases e : o.discount_amount with _ | da
  · rw [Order.update_total_amount, e] at h
    exact Option.noConfusion h
  · rw [Order.update_total_amount, e, Option.map_some'] at h
    obtain rfl := Option.some.inj h
    exact le_max_right _ _

/-- C6 witness: recomputing the plain empty order completes with a
nonnegative total. -/
theorem C6_total_nonneg_witness :
    0 ≤ Order.total_amount { plainOrder with total_amount := 0 } :=
  C6_total_nonneg plainOrder _ (by
    norm_num [Order.update_total_amount, Order.discount_amount,
      Order.subtotal, plainOrder])

/-- C7: update_total_amount is idempotent: if it completes and saves an
order, running it again on the saved order completes and leaves the
order unchanged, total_amount included. -/
theorem C7_update_idempotent (o o' : Order)
    (h : o.update_total_amount = some o') :
    o'.update_total_amount = some o' := by
  rcases e : o.discount_amount with _ | da
  · rw [Order.update_total_amount, e] at h
    exact Option.noConfusion h
  · rw [Order.update_total_amount, e, Option.map_some'] at h
    obtain rfl := Option.some.inj h
    rw [Order.update_total_amount, discount_amount_total_irrel, e, Option.map_some',
        subtotal_total_irrel]
    rfl

/-- C7 witness: recomputing the already-recomputed plain empty order
returns it unchanged. -/
theorem C7_update_idempotent_witness :
    Order.update_total_amount { plainOrder with total_amount := 0 }
      = some { plainOrder with total_amount := 0 } :=
  C7_update_idempotent plainOrder _ (by
    norm_num [Order.update_total_amount, Order.discount_amount,
      Order.subtotal, plainOrder])

/-- C2: saving an order item decrements, for each recipe line of its
menu item, the stored quantity of the linked ingredient by
recipe.quantity * orderItem.quantity, and then recomputes the owning
order total.  The distinctness hypothesis on the ingredient keys is the
unique_together (menu_item, ingredient) constraint of the Recipe table. -/
theorem C2_save_depletes_stock_and_updates_total (it : OrderItem)
    (stock : Nat → ℚ) (o : Order)
    (hN : ((it.menu_item.recipe_items.map fun r => r.ingredient.id).Nodup)) :
    (∀ r ∈ it.menu_item.recipe_items,
        (it.save stock o).1 r.ingredient.id
          = stock r.ingredient.id - r.quantity * it.quantity)
      ∧ (it.save stock o).2 = o.update_total_amount := by
  refine ⟨?_, rfl⟩
  intro r hr
  exact depleteStock_mem _ _ _ hN r hr

/-- C2 witness: a line of quantity 3 on the Burger, whose only recipe
line needs 1 Bun, drops the stored Bun quantity from 100 to 97. -/
theorem C2_save_depletes_stock_and_updates_total_witness :
    (OrderItem.save ⟨burger, 3, 5, false⟩
      (fun j => if j = 1 then 100 else 0) plainOrder).1 1 = 97 := by
  have h := (C2_save_depletes_stock_and_updates_total ⟨burger, 3, 5, false⟩
    (fun j => if j = 1 then 100 else 0) plainOrder (by decide)).1
    ⟨bun, 1⟩ (by simp [burger])
  norm_num [bun] at h
  exact h

/-- C5: for a valid amount-type discount the accumulated discount is the
flat discount_value times the number of order lines whose menu item is
not excluded, with no dependence on the line quantities. -/
theorem C5_amount_once_per_line (o : Order) (d : Discount)
    (hd : o.discount = some d) (hv : d.is_valid = some true)
    (ht : d.discount_type = "amount") :
    o.discount_amount = some
      (d.discount_value
        * ((o.items.filter fun it => it.menu_item.id ∉ d.excluded_items).length : ℚ)) := by
  rw [discount_amount_of_valid o d hd hv, sum_line_discount_amount d ht]

/-- C5 witness: the one-line order under the flat value-3 discount
accumulates exactly 3. -/
theorem C5_amount_once_per_line_witness :
    flatOrder.discount_amount = some 3 := by
  have h := C5_amount_once_per_line flatOrder flat3 rfl rfl rfl
  norm_num [flatOrder, flat3, itemA] at h
  exact h

/-- C8: the stock decrement is applied with no lower bound and no
failure path: for every order item save and every recipe line of its
menu item, when the required depletion exceeds the stored quantity, the
decrement is applied anyway and the stored quantity becomes negative.
The save function is total, and never reads reorder_point.  As in C2,
the distinctness hypothesis on the ingredient keys is the
unique_together (menu_item, ingredient) constraint of the Recipe table. -/
theorem C8_stock_unbounded_below (it : OrderItem) (stock : Nat → ℚ)
    (o : Order) (r : Recipe)
    (hN : ((it.menu_item.recipe_items.map fun r => r.ingredient.id).Nodup))
    (hr : r ∈ it.menu_item.recipe_items)
    (hlt : stock r.ingredient.id < r.quantity * it.quantity) :
    (it.save stock o).1 r.ingredient.id
        = stock r.ingredient.id - r.quantity * it.quantity
      ∧ (it.save stock o).1 r.ingredient.id < 0 := by
  have h1 : (it.save stock o).1 r.ingredient.id
      = stock r.ingredient.id - r.quantity * it.quantity :=
    depleteStock_mem _ _ _ hN r hr
  exact ⟨h1, by rw [h1]; exact sub_neg.mpr hlt⟩

/-- C8 witness: a stock of 1 Bun against a Burger line of quantity 3
goes to -2 with no error. -/
theorem C8_stock_unbounded_below_witness :
    (OrderItem.save ⟨burger, 3, 5, false⟩ (fun _ => 1) plainOrder).1 1 < 0 := by
  have h := (C8_stock_unbounded_below ⟨burger, 3, 5, false⟩ (fun _ => 1)
    plainOrder ⟨bun, 1⟩ (by decide) (by simp [burger]) (by norm_num [bun])).2
  norm_num [bun] at h
  exact h

/-- C9 counterexample: the claim as stated fails at this concrete input.
couponOrder has one non-free line of price -1 and quantity 1 under a
valid coupon-type discount, so its plain subtotal is -1; the code clamps
the recomputed total_amount to 0, which is not the plain subtotal. -/
theorem C9_clamped_below_subtotal_counterexample :
    (couponOrder.update_total_amount).map Order.total_amount
      ≠ some couponOrder.subtotal := by
  have h : (couponOrder.update_total_amount).map Order.total_amount = some 0 := by
    simp [Order.update_total_amount, Order.discount_amount,
      Discount.is_valid, Discount.line_discount, Order.subtotal,
      OrderItem.subtotal, couponOrder, coupon0, itemA]
  rw [h]
  norm_num [Order.subtotal, OrderItem.subtotal, couponOrder, itemA]

/-- C9 (amended): for every order whose discount is a valid coupon-type
discount, update_total_amount accumulates a discount of exactly 0
(neither the amount branch nor the percentage branch applies), so
total_amount is set to max 0 subtotal, the same total as if no discount
were attached. -/
theorem C9_coupon_no_monetary_effect (o : Order) (d : Discount)
    (hd : o.discount = some d) (hv : d.is_valid = some true)
    (ht : d.discount_type = "coupon") :
    o.discount_amount = some 0
      ∧ o.update_total_amount = some { o with total_amount := max o.subtotal 0 }
      ∧ (o.update_total_amount).map Order.total_amount
          = (Order.update_total_amount { o with discount := none }).map
              Order.total_amount := by
  have h0 : o.discount_amount = some 0 := by
    rw [discount_amount_of_valid o d hd hv, sum_line_discount_coupon d ht]
  have h1 : o.update_total_amount
      = some { o with total_amount := max o.subtotal 0 } := by
    rw [Order.update_total_amount, h0, Option.map_some']
    simp [sub_zero]
  refine ⟨h0, h1, ?_⟩
  have h2 : Order.discount_amount { o with discount := none } = some 0 := rfl
  rw [h1, Order.update_total_amount, h2]
  simp [sub_zero, subtotal_discount_irrel]

/-- C9 witness (amended claim): the coupon order accumulates 0 discount
and its negative subtotal is clamped to a recomputed total of 0. -/
theorem C9_coupon_no_monetary_effect_witness :
    couponOrder.discount_amount = some 0
      ∧ (couponOrder.update_total_amount).map Order.total_amount = some 0 := by
  obtain ⟨h0, h1, -⟩ :=
    C9_coupon_no_monetary_effect couponOrder coupon0 rfl rfl rfl
  refine ⟨h0, ?_⟩
  rw [h1]
  norm_num [Order.subtotal, OrderItem.subtotal, couponOrder, itemA]

/-- C10: an order line with is_free true contributes 0 to the subtotal
but still accrues discount when its menu item is not excluded: a valid
amount-type discount adds its flat value once for it, a valid
percentage-type discount adds (price * value / 100) * quantity for it;
concretely, adding the free 5.00 line to the one-line order under the
flat value-3 discount drops the recomputed total from 7 to 4. -/
theorem C10_free_line_accrues_discount (o : Order) (d : Discount)
    (li : OrderItem) (da : ℚ)
    (hd : o.discount = some d) (hv : d.is_valid = some true)
    (hfree : li.is_free = true)
    (hex : li.menu_item.id ∉ d.excluded_items)
    (hda : o.discount_amount = some da) :
    (Order.subtotal { o with items := li :: o.items } = o.subtotal
      ∧ (d.discount_type = "amount" →
          Order.discount_amount { o with items := li :: o.items }
            = some (d.discount_value + da))
      ∧ (d.discount_type = "percentage" →
          Order.discount_amount { o with items := li :: o.items }
            = some (li.price * d.discount_value / 100 * li.quantity + da)))
      ∧ ((Order.update_total_amount
            { flatOrder with items := freeLine :: flatOrder.items }).map
              Order.total_amount = some 4
          ∧ (flatOrder.update_total_amount).map Order.total_amount = some 7
          ∧ freeLine.is_free = true ∧ (4 : ℚ) < 7) := by
  have hsum : (o.items.map d.line_discount).sum = da := by
    have h := discount_amount_of_valid o d hd hv
    rw [h] at hda
    exact Option.some.inj hda
  have hd2 : ({ o with items := li :: o.items } : Order).discount = some d := hd
  have hcons := discount_amount_of_valid { o with items := li :: o.items } d hd2 hv
  refine ⟨⟨?_, ?_, ?_⟩, ?_, ?_, rfl, by norm_num⟩
  · simp [Order.subtotal, OrderItem.subtotal, hfree]
  · intro ht
    rw [hcons]
    simp only [List.map_cons, List.sum_cons, hsum]
    rw [Discount.line_discount]
    simp [hex, ht]
  · intro ht
    rw [hcons]
    simp only [List.map_cons, List.sum_cons, hsum]
    rw [Discount.line_discount]
    simp [hex, ht]
  · norm_num [Order.update_total_amount, Order.discount_amount,
      Discount.is_valid, Discount.line_discount, Order.subtotal,
      OrderItem.subtotal, flatOrder, flat3, freeLine, itemA, itemB]
  · norm_num [Order.update_total_amount, Order.discount_amount,
      Discount.is_valid, Discount.line_discount, Order.subtotal,
      OrderItem.subtotal, flatOrder, flat3, itemA]

/-- C10 witness: adding the free line to the one-line order under the
flat value-3 discount accumulates a discount of 3 + 3. -/
theorem C10_free_line_accrues_discount_witness :
    Order.discount_amount { flatOrder with items := freeLine :: flatOrder.items }
      = some 6 := by
  have hda : flatOrder.discount_amount = some 3 := by
    norm_num [Order.discount_amount, flatOrder, flat3,
      Discount.is_valid, Discount.line_discount, itemA]
  have h := (C10_free_line_accrues_discount flatOrder flat3 freeLine 3
    rfl rfl rfl (by decide) hda).1.2.1 rfl
  norm_num [flat3] at h
  exact h

end POS
